import Mathlib

/-!
Verification of the agente-cassiano job-orchestration clients.

The repository contains four independent drivers of the backend job engine:

* `daily_update.ps1` (src/unnamed/part_000) — the unattended scheduler:
  health probe, one POST /api/atualizar, then a 10-second poll loop under a
  300-second ceiling; modelled in namespace `Sched`.
* the newer Framer dashboard component (src/unnamed/part_001) — `fetchData`,
  `pollStatus` with a `pollRef`/`stopPolling` pair and an unmount cleanup
  effect; modelled in namespace `Web001`.
* the older `src/curadoria-web/src/framer-exports.tsx` component — the same
  shape but with a local `setInterval` handle, no `res.ok` check in its poll
  tick and no unmount cleanup; modelled in namespace `FramerOld`.
* `src/curadoria-web/src/App.tsx` with `ContentCard` and `SectionTabs` —
  modelled in namespace `AppWeb`.

Fetch results are embedded as an explicit datatype (`HttpResult`): a browser
fetch either rejects (transport error / timeout), or resolves to a response
carrying its `ok` flag and a body that `res.json()` may fail to parse.
-/

/-- A curated item as delivered on the wire.  `relevance_score`, `tags`,
`published_date` and `comment_count` may be absent in older payloads (JS
`undefined`), hence `Option`; the remaining fields are the required strings of
`src/curadoria-web/src/types.ts`. -/
structure CuratedItem where
  title : String
  source : String
  channel : String
  description : String
  author : String
  url : String
  relevance_score : Option Rat
  tags : Option (List String)
  published_date : Option String
  comment_count : Option Int
deriving DecidableEq, Repr

/-- Result of one client HTTP call as the calling JS code can observe it:
`transportError` — the fetch promise rejected (network failure or timeout);
`response ok body` — a response arrived with `res.ok = ok`, and `body = none`
means `res.json()` threw on an unparseable body. -/
inductive HttpResult (β : Type) where
  | transportError
  | response (ok : Bool) (body : Option β)
deriving DecidableEq, Repr

/-- Body of GET /api/status as read by the dashboards: `data.status` and
`data.detail` (the detail may be absent). -/
structure StatusBody where
  status : String
  detail : Option String
deriving DecidableEq, Repr

/-- JS `a || b` on a possibly-absent string: both `undefined` and the empty
string are falsy. -/
def jsOr (s : Option String) (d : String) : String :=
  match s with
  | none => d
  | some t => if t = "" then d else t

/-- Backend endpoints addressed by the clients. -/
inductive Endpoint where
  | health
  | atualizar
  | status
  | curadoria
deriving DecidableEq, Repr

namespace Sched

/-- `$maxWait = 300` of daily_update.ps1. -/
def maxWait : Nat := 300

/-- `$interval = 10` of daily_update.ps1. -/
def interval : Nat := 10

/-- One `Invoke-RestMethod .../api/status` call of the ps1 poll loop:
`fail` — the call threw (transport error, its 30 s timeout, or a non-2xx
response); `status s d` — a body with the given status and detail arrived. -/
inductive PollResult where
  | fail
  | status (s : String) (detail : String)
deriving DecidableEq, Repr

/-- Whether one poll step makes the ps1 loop `break`: only an observed body
whose status equals "done" or "error"; a thrown call is caught and merely
logged (`catch { Log ... }`), so the loop continues. -/
def tickTerminal : PollResult → Bool
  | .fail => false
  | .status s _ => s == "done" || s == "error"

/-- What the ps1 `while` loop ends with: the final `$elapsed`, the terminal
status that caused the `break` (none when the ceiling expired), and how many
status polls were issued. -/
structure LoopExit where
  elapsed : Nat
  terminal : Option String
  pollCount : Nat
deriving DecidableEq, Repr

/-- The polling loop of daily_update.ps1 (lines 49-61): while
`$elapsed -lt $maxWait`, sleep `$interval`, add it to `$elapsed`, call
/api/status (the k-th call is `polls k`), and `break` only on an observed
"done" or "error"; a thrown call is caught and logged. -/
def loop (polls : Nat → PollResult) (k elapsed pollCount : Nat) : LoopExit :=
  if _h : elapsed < maxWait then
    match polls k with
    | .fail => loop polls (k + 1) (elapsed + interval) (pollCount + 1)
    | .status s _ =>
        if s == "done" || s == "error" then
          ⟨elapsed + interval, some s, pollCount + 1⟩
        else
          loop polls (k + 1) (elapsed + interval) (pollCount + 1)
  else
    ⟨elapsed, none, pollCount⟩
termination_by maxWait - elapsed
decreasing_by
  simp only [maxWait, interval] at *
  omega

/-- Outcome of the single `Invoke-WebRequest -Method POST .../api/atualizar`
trigger call: `err` — it threw (transport error or non-2xx response), which
the ps1 catches with `exit 1`; `ok success` — an HTTP-success response whose
body carries the engine acceptance flag (the ps1 only logs
`$response.Content`, it never reads the flag). -/
inductive TriggerResult where
  | err
  | ok (success : Bool)
deriving DecidableEq, Repr

/-- Observable outcome of one daily_update.ps1 invocation: the process exit
code, whether the polling phase was entered, the loop exit when it was, and
whether the final `if ($elapsed -ge $maxWait)` logged the TIMEOUT line. -/
structure RunResult where
  exitCode : Nat
  enteredPolling : Bool
  loopExit : Option LoopExit
  timeoutLogged : Bool
deriving DecidableEq, Repr

/-- daily_update.ps1 after the best-effort health probe: the trigger `catch`
runs `exit 1` before any polling; otherwise the loop runs and the script falls
off the end (exit code 0) whatever the loop observed. -/
def run (trig : TriggerResult) (polls : Nat → PollResult) : RunResult :=
  match trig with
  | .err => { exitCode := 1, enteredPolling := false, loopExit := none, timeoutLogged := false }
  | .ok _ =>
      let r := loop polls 0 0 0
      { exitCode := 0
        enteredPolling := true
        loopExit := some r
        timeoutLogged := decide (maxWait ≤ r.elapsed) }

end Sched

namespace Web001

/-- Body of GET /api/curadoria as the part_001 component reads it: `data.items`
(defended with `|| []`, so modelled as possibly absent) and `data.updated_at`. -/
structure CuradoriaBody where
  items : Option (List CuratedItem)
  updated_at : Option String
deriving DecidableEq, Repr

/-- The `useState` hooks of the part_001 `CuradoriaInbix` component, plus
`pollActive` for whether `pollRef.current` holds a live interval. -/
structure Dash where
  items : List CuratedItem
  loading : Bool
  lastUpdate : Option String
  error : Option String
  statusMsg : Option String
  pollActive : Bool
deriving DecidableEq, Repr

/-- Initial hook values of the part_001 component. -/
def initDash : Dash :=
  { items := [], loading := false, lastUpdate := none, error := none,
    statusMsg := none, pollActive := false }

/-- `fetchData` of part_001 (lines 62-72): on `res.ok` and a parsed body, set
`items` to `data.items || []` and `lastUpdate` to `data.updated_at`; a
transport error, a non-ok response (`throw` into the catch) or an unparseable
body is silently swallowed. -/
def fetchData (r : HttpResult CuradoriaBody) (st : Dash) : Dash :=
  match r with
  | .transportError => st
  | .response ok body =>
      if ok then
        match body with
        | none => st
        | some data => { st with items := data.items.getD [], lastUpdate := data.updated_at }
      else st

/-- The requests issued by the part_001 mount effect
(`useEffect(() => { fetchData(); }, [fetchData])`): a single GET
/api/curadoria — no status request is made on load. -/
def mountRequests : List Endpoint := [Endpoint.curadoria]

/-- The part_001 mount effect: it only runs `fetchData`. -/
def mount (r : HttpResult CuradoriaBody) (st : Dash) : Dash := fetchData r st

/-- One tick of the part_001 `pollStatus` interval (lines 85-109): bail out on
a transport error (`catch`), on `!res.ok` (`return`), or on an unparseable
body (`catch`); otherwise act on `data.status` — "running" updates the status
message, "done" stops polling and refetches the dataset (`dr` is that fetch's
result), "error" stops polling and surfaces the detail, anything else is
ignored. -/
def pollTick (r : HttpResult StatusBody) (dr : HttpResult CuradoriaBody) (st : Dash) : Dash :=
  match r with
  | .transportError => st
  | .response ok body =>
      if ok then
        match body with
        | none => st
        | some data =>
            if data.status = "running" then
              { st with statusMsg := some (jsOr data.detail ("Processando...")) }
            else if data.status = "done" then
              fetchData dr { st with pollActive := false, statusMsg := none, loading := false }
            else if data.status = "error" then
              { st with pollActive := false, statusMsg := none, loading := false,
                        error := some (jsOr data.detail ("Erro ao atualizar")) }
            else st
      else st

/-- `handleUpdate` of part_001 (lines 115-128): set loading/statusMsg, POST
/api/atualizar (the body is never read, only `res.ok` matters), start
`pollStatus` on success, and surface a connection error otherwise. -/
def handleUpdate (r : HttpResult Unit) (st : Dash) : Dash :=
  let st1 := { st with loading := true, error := none,
                       statusMsg := some ("Iniciando coleta de dados...") }
  match r with
  | .transportError =>
      { st1 with loading := false, statusMsg := none,
                 error := some ("Falha na conexão com o servidor") }
  | .response ok _ =>
      if ok then { st1 with pollActive := true }
      else
        { st1 with loading := false, statusMsg := none,
                   error := some ("Falha na conexão com o servidor") }

/-- Externally visible events of the part_001 component after mount. -/
inductive Ev where
  | update (r : HttpResult Unit)
  | tick (sr : HttpResult StatusBody) (dr : HttpResult CuradoriaBody)
  | unmount
deriving Repr

/-- Event step of the part_001 component: the update button is disabled while
loading, interval ticks only fire while the interval is live, and the unmount
cleanup effect (lines 111-113) runs `stopPolling`, clearing the interval. -/
def step (st : Dash) : Ev → Dash
  | .update r => if st.loading then st else handleUpdate r st
  | .tick sr dr => if st.pollActive then pollTick sr dr st else st
  | .unmount => { st with pollActive := false }

end Web001

namespace FramerOld

/-- Body of POST /api/atualizar as read by framer-exports.tsx `handleUpdate`
(`data.success`). -/
structure TrigBody where
  success : Bool
deriving DecidableEq, Repr

/-- The `useState` hooks of the framer-exports.tsx `CuradoriaInbix` component;
`statusMsg` is a plain string there (`useState<string>("")`), and `timers`
counts the live `setInterval` handles created by `pollStatus` (the component
keeps each handle only in a local, so nothing outside the tick itself can
clear one). -/
structure Dash where
  items : List CuratedItem
  loading : Bool
  lastUpdate : Option String
  error : Option String
  statusMsg : String
  timers : Nat
deriving DecidableEq, Repr

/-- Initial hook values of framer-exports.tsx. -/
def initDash : Dash :=
  { items := [], loading := false, lastUpdate := none, error := none,
    statusMsg := "", timers := 0 }

/-- `fetchData` of framer-exports.tsx (lines 46-56): identical to the part_001
one — only `res.ok` plus a parsed body updates items/lastUpdate. -/
def fetchData (r : HttpResult Web001.CuradoriaBody) (st : Dash) : Dash :=
  match r with
  | .transportError => st
  | .response ok body =>
      if ok then
        match body with
        | none => st
        | some data => { st with items := data.items.getD [], lastUpdate := data.updated_at }
      else st

/-- One tick of the framer-exports.tsx `pollStatus` interval (lines 62-84).
Note the code never consults `res.ok`: any response whose body parses is acted
on.  A transport error or an unparseable body falls into the `catch` and the
interval keeps running; a parsed body first overwrites `statusMsg` with
`data.detail || ""`, then "done" clears this interval and refetches, and
"error" clears this interval and surfaces the detail. -/
def pollTick (r : HttpResult StatusBody) (dr : HttpResult Web001.CuradoriaBody) (st : Dash) : Dash :=
  match r with
  | .transportError => st
  | .response _ body =>
      match body with
      | none => st
      | some data =>
          let st1 := { st with statusMsg := jsOr data.detail ("") }
          if data.status = "done" then
            fetchData dr { st1 with timers := st1.timers - 1, loading := false, statusMsg := "" }
          else if data.status = "error" then
            { st1 with timers := st1.timers - 1, loading := false, statusMsg := "",
                       error := some (jsOr data.detail ("Erro ao atualizar")) }
          else st1

/-- `handleUpdate` of framer-exports.tsx (lines 86-103): POST /api/atualizar,
parse the body (again without consulting `res.ok`), and start a new
`pollStatus` interval when `data.success` is truthy; a thrown fetch or parse
lands in the `catch`. -/
def handleUpdate (r : HttpResult TrigBody) (st : Dash) : Dash :=
  let st1 := { st with loading := true, error := none, statusMsg := "Iniciando..." }
  match r with
  | .transportError =>
      { st1 with loading := false, error := some ("Falha na conexão com o servidor") }
  | .response _ body =>
      match body with
      | none => { st1 with loading := false, error := some ("Falha na conexão com o servidor") }
      | some data =>
          if data.success then { st1 with timers := st1.timers + 1 }
          else { st1 with loading := false, error := some ("Erro ao iniciar atualização") }

/-- Externally visible events of the framer-exports.tsx component after
mount. -/
inductive Ev where
  | update (r : HttpResult TrigBody)
  | tick (sr : HttpResult StatusBody) (dr : HttpResult Web001.CuradoriaBody)
  | unmount
deriving Repr

/-- Event step of framer-exports.tsx: the update button is disabled while
loading, ticks fire while at least one interval is live — and the component
declares no cleanup effect, so unmount changes nothing and live intervals
keep firing. -/
def step (st : Dash) : Ev → Dash
  | .update r => if st.loading then st else handleUpdate r st
  | .tick sr dr => if 0 < st.timers then pollTick sr dr st else st
  | .unmount => st

/-- Folding a list of events from the initial state. -/
def run (evs : List Ev) : Dash := evs.foldl step initDash

end FramerOld

namespace AppWeb

/-- `FilterType` of src/curadoria-web/src/types.ts. -/
inductive FilterType where
  | all
  | newsletters
  | reddit
  | youtube
deriving DecidableEq, BEq, Repr

/-- `CuradoriaData` of types.ts as used by `fetchData`: `items` is a required
typed field here. -/
structure CuradoriaData where
  updated_at : Option String
  total : Nat
  items : List CuratedItem
deriving DecidableEq, Repr

/-- Body of POST /api/atualizar as read by App.tsx `handleUpdate`:
`data.success`, `data.items`, `data.updated_at`, `data.error`. -/
structure AtualizarBody where
  success : Bool
  items : List CuratedItem
  updated_at : Option String
  error : Option String
deriving DecidableEq, Repr

/-- The `useState` hooks of App.tsx (the `filter` hook is kept out of the
record; filtering is the pure `filtered` function below). -/
structure AppState where
  items : List CuratedItem
  loading : Bool
  lastUpdate : Option String
  error : Option String
  initialLoad : Bool
deriving DecidableEq, Repr

/-- Initial hook values of App.tsx. -/
def initApp : AppState :=
  { items := [], loading := false, lastUpdate := none, error := none, initialLoad := true }

/-- `fetchData` of App.tsx (lines 17-30): on `res.ok` and a parsed body set
items/lastUpdate and clear the error; any thrown step only logs; `finally`
clears `initialLoad`. -/
def fetchData (r : HttpResult CuradoriaData) (st : AppState) : AppState :=
  let st1 :=
    match r with
    | .transportError => st
    | .response ok body =>
        if ok then
          match body with
          | none => st
          | some data => { st with items := data.items, lastUpdate := data.updated_at, error := none }
        else st
  { st1 with initialLoad := false }

/-- The requests issued by the App.tsx mount effect
(`useEffect(() => { fetchData(); }, [fetchData])`): a single GET
/api/curadoria — no status request is made on load. -/
def mountRequests : List Endpoint := [Endpoint.curadoria]

/-- The App.tsx mount effect: it only runs `fetchData`. -/
def mount (r : HttpResult CuradoriaData) (st : AppState) : AppState := fetchData r st

/-- The catch-branch message of App.tsx `handleUpdate`. -/
def connErrorMsg : String := "Falha na conexão com o servidor. Verifique se a API está rodando."

/-- `handleUpdate` of App.tsx (lines 36-54): POST /api/atualizar; `!res.ok`
throws into the catch, a parsed body with `success` replaces items/lastUpdate,
`success: false` surfaces `data.error`, and any thrown step surfaces the
connection message; `finally` clears `loading`. -/
def handleUpdate (r : HttpResult AtualizarBody) (st : AppState) : AppState :=
  let st1 := { st with loading := true, error := none }
  let st2 :=
    match r with
    | .transportError => { st1 with error := some connErrorMsg }
    | .response ok body =>
        if ok then
          match body with
          | none => { st1 with error := some connErrorMsg }
          | some data =>
              if data.success then
                { st1 with items := data.items, lastUpdate := data.updated_at }
              else
                { st1 with error := some (jsOr data.error ("Erro desconhecido ao atualizar")) }
        else { st1 with error := some connErrorMsg }
  { st2 with loading := false }

/-- `filtered` of App.tsx (lines 56-61): three explicit cases and a final
`return true`; the `youtube` filter reaches only the final `return true`, as
no YouTube predicate exists. -/
def filtered (filter : FilterType) (items : List CuratedItem) : List CuratedItem :=
  items.filter fun item =>
    match filter with
    | .all => true
    | .newsletters => item.source != "Reddit"
    | .reddit => item.source == "Reddit"
    | .youtube => true

/-- The `counts` object literal of App.tsx (lines 63-67): it has keys `all`,
`newsletters` and `reddit` only; indexing it with any other key, as
`counts[tab.key]` in SectionTabs does for `youtube`, yields JS `undefined`
(`none`). -/
def counts (items : List CuratedItem) : FilterType → Option Nat
  | .all => some items.length
  | .newsletters => some (items.filter fun i => i.source != "Reddit").length
  | .reddit => some (items.filter fun i => i.source == "Reddit").length
  | .youtube => none

/-- `TABS` of src/curadoria-web/src/components/SectionTabs.tsx (lines 15-20):
the rendered tab keys and labels, including a YouTube tab. -/
def sectionTabs : List (FilterType × String) :=
  [(FilterType.all, "Todos"), (FilterType.youtube, "YouTube"),
   (FilterType.reddit, "Reddit"), (FilterType.newsletters, "Newsletters")]

/-- `getSourceColor` of ContentCard.tsx. -/
def getSourceColor (source : String) : String :=
  if source.toLower = "reddit" then "#ff4500" else "#085fff"

/-- `truncateText` of ContentCard.tsx. -/
def truncateText (text : String) (maxLength : Nat) : String :=
  if text.length ≤ maxLength then text
  else (text.take maxLength).trimRight ++ "..."

/-- JS `x > 0` where `x` may be `undefined` (`undefined > 0` is `false`). -/
def jsGtZero (x : Option Rat) : Bool :=
  match x with
  | none => false
  | some q => decide (0 < q)

/-- JS `Math.round` (round half up). -/
def jsRound (q : Rat) : Int := (q + 1 / 2).floor

/-- What one rendered ContentCard shows. -/
structure Card where
  sourceColor : String
  channelLabel : String
  badge : Option Int
  titleText : String
  linkUrl : String
  descText : Option String
  authorText : String
  linkShown : Bool
deriving DecidableEq, Repr

/-- `ContentCard` of ContentCard.tsx (lines 165-213) as a rendering function.
The result is `Except` so that a JS `TypeError` raised during rendering would
be an `error`; the component performs no operation that can throw on the
possibly-absent wire fields — `relevance_score` is only compared with `> 0`
(total on `undefined`) and rounded inside that guard, and `tags`,
`published_date` and `comment_count` are never read — so every path is `ok`. -/
def renderCard (item : CuratedItem) : Except String Card :=
  Except.ok
    { sourceColor := getSourceColor item.source
      channelLabel := item.channel
      badge :=
        if jsGtZero item.relevance_score then
          some (jsRound (item.relevance_score.getD 0))
        else none
      titleText := item.title
      linkUrl := item.url
      descText :=
        if item.description != "" && item.description != item.title then
          some (truncateText item.description 200)
        else none
      authorText := item.author
      linkShown := item.url != "" }

end AppWeb

/-! Theorems. -/

theorem Sched.loop_pollCount_le (polls : Nat → Sched.PollResult) :
    ∀ (n k elapsed c : Nat), 300 ≤ elapsed + 10 * n →
      (Sched.loop polls k elapsed c).pollCount ≤ c + n := by
  intro n
  induction n with
  | zero =>
      intro k elapsed c h
      rw [Sched.loop]
      have hcond : ¬ elapsed < Sched.maxWait := by
        simp only [Sched.maxWait]
        omega
      simp [hcond]
  | succ m ih =>
      intro k elapsed c h
      rw [Sched.loop]
      split
      · cases hp : polls k with
        | fail =>
            have hrec := ih (k + 1) (elapsed + Sched.interval) (c + 1)
              (by simp only [Sched.interval]; omega)
            show (Sched.loop polls (k + 1) (elapsed + Sched.interval) (c + 1)).pollCount ≤ c + (m + 1)
            omega
        | status s d =>
            dsimp only
            by_cases hterm : (s == "done" || s == "error") = true
            · rw [if_pos hterm]
              show c + 1 ≤ c + (m + 1)
              omega
            · rw [if_neg hterm]
              have hrec := ih (k + 1) (elapsed + Sched.interval) (c + 1)
                (by simp only [Sched.interval]; omega)
              show (Sched.loop polls (k + 1) (elapsed + Sched.interval) (c + 1)).pollCount ≤ c + (m + 1)
              omega
      · show c ≤ c + (m + 1)
        omega

/-- Claim C6: the scheduler polling phase always terminates — it polls at the
fixed 10-second `Sched.interval` under the hard 300-second `Sched.maxWait`
ceiling, so it issues at most 30 status polls before exiting, for every
sequence of status responses including ones that never reach a terminal
status. -/
theorem c6_scheduler_poll_bound (polls : Nat → Sched.PollResult) :
    (Sched.loop polls 0 0 0).pollCount ≤ 30
    ∧ Sched.interval = 10 ∧ Sched.maxWait = 300 := by
  refine ⟨?_, rfl, rfl⟩
  have h := Sched.loop_pollCount_le polls 30 0 0 0 (by omega)
  simpa using h

/-- Claim C1 (refuted by the code): daily_update.ps1 maps every polling-phase
outcome to exit code 0 — a run that observed engine status "error" exits 0
exactly like a run that observed "done", and so does a run that reached the
300-second ceiling with only "running" responses; only a thrown Trigger call
exits non-zero (1).  The three outcomes are therefore not mapped to
distinguishable exit codes. -/
theorem c1_scheduler_exit_codes_collapse :
    (Sched.run (Sched.TriggerResult.ok true) fun _ => Sched.PollResult.status ("error") ("falhou")).exitCode = 0
    ∧ (Sched.run (Sched.TriggerResult.ok true) fun _ => Sched.PollResult.status ("done") ("ok")).exitCode = 0
    ∧ (Sched.run (Sched.TriggerResult.ok true) fun _ => Sched.PollResult.status ("running") ("x")).exitCode = 0
    ∧ (Sched.run Sched.TriggerResult.err fun _ => Sched.PollResult.fail).exitCode = 1
    ∧ (Sched.run (Sched.TriggerResult.ok true) fun _ => Sched.PollResult.status ("error") ("falhou")).loopExit
        = some ⟨10, some ("error"), 1⟩ := by
  refine ⟨rfl, rfl, rfl, rfl, ?_⟩
  rw [Sched.run]
  rw [Sched.loop]
  norm_num [Sched.maxWait, Sched.interval]

/-- Claim C7 counterexample: an HTTP-success Trigger response whose body
reports non-success does not abort the scheduler — the polling phase is still
entered and the script still exits 0, contradicting "a non-success response
body aborts immediately with a failure outcome and no polling phase is
entered". -/
theorem c7_counterexample_success_false_body_still_polls :
    (Sched.run (Sched.TriggerResult.ok false) fun _ => Sched.PollResult.status ("done") ("ok")).enteredPolling = true
    ∧ (Sched.run (Sched.TriggerResult.ok false) fun _ => Sched.PollResult.status ("done") ("ok")).exitCode = 0 :=
  ⟨rfl, rfl⟩

/-- Claim C7 as amended: if the scheduler's single Trigger call throws —
transport error or non-2xx HTTP response — it aborts immediately with exit
code 1, the Trigger is never retried and no polling phase is entered; the
response body of a non-thrown call is never inspected, so any HTTP-success
response (whatever its body says) enters the polling phase. -/
theorem c7_amended_trigger_throw_aborts (b : Bool) (polls : Nat → Sched.PollResult) :
    (Sched.run Sched.TriggerResult.err polls).exitCode = 1
    ∧ (Sched.run Sched.TriggerResult.err polls).enteredPolling = false
    ∧ (Sched.run Sched.TriggerResult.err polls).loopExit = none
    ∧ (Sched.run (Sched.TriggerResult.ok b) polls).enteredPolling = true :=
  ⟨rfl, rfl, rfl, rfl⟩

/-- Claim C2 counterexample: the mount effects of both dashboards issue only
the dataset request — no status request is made on load, so even when the
engine has a running job at load time the part_001 driver ends its load with
no live poll interval and no processing indicator; it just renders the
fetched dataset. -/
theorem c2_counterexample_no_status_fetch_on_load :
    Endpoint.status ∉ Web001.mountRequests
    ∧ Endpoint.status ∉ AppWeb.mountRequests
    ∧ (Web001.mount (HttpResult.response true (some ⟨some [], some ("2025-01-01")⟩)) Web001.initDash).pollActive = false
    ∧ (Web001.mount (HttpResult.response true (some ⟨some [], some ("2025-01-01")⟩)) Web001.initDash).statusMsg = none := by
  refine ⟨by decide, by decide, rfl, rfl⟩

/-- Claim C2 as amended: on load each dashboard driver fetches only the
current dataset, once; it never fetches the job status at load, never
auto-attaches to a running job and shows no processing indicator — the
existing dataset is rendered immediately whatever the engine state; polling
starts only on a user-initiated update. -/
theorem c2_amended_load_fetches_dataset_only (r : HttpResult Web001.CuradoriaBody)
    (ra : HttpResult AppWeb.CuradoriaData) (st : Web001.Dash) (sa : AppWeb.AppState) :
    Web001.mountRequests = [Endpoint.curadoria]
    ∧ AppWeb.mountRequests = [Endpoint.curadoria]
    ∧ (Web001.mount r st).pollActive = st.pollActive
    ∧ (Web001.mount r st).statusMsg = st.statusMsg
    ∧ (Web001.mount r st).loading = st.loading
    ∧ (AppWeb.mount ra sa).initialLoad = false := by
  refine ⟨rfl, rfl, ?_, ?_, ?_, ?_⟩
  · cases r with
    | transportError => rfl
    | response ok body =>
        cases ok <;> cases body <;> rfl
  · cases r with
    | transportError => rfl
    | response ok body =>
        cases ok <;> cases body <;> rfl
  · cases r with
    | transportError => rfl
    | response ok body =>
        cases ok <;> cases body <;> rfl
  · cases ra with
    | transportError => rfl
    | response ok body =>
        cases ok <;> cases body <;> rfl

/-- Claim C3 (code bug in framer-exports.tsx): after the user starts an
update (trigger accepted with `success: true`) and the component unmounts
while the job is still running, the poll interval is still live — the
component has no cleanup effect — and a subsequent tick still fires and
mutates state (the status message changes to the polled detail).  By
contrast, the part_001 component's unmount cleanup clears its interval from
any state. -/
theorem c3_framer_unmount_timer_leak :
    (FramerOld.run [FramerOld.Ev.update (HttpResult.response true (some ⟨true⟩)), FramerOld.Ev.unmount]).timers = 1
    ∧ (FramerOld.step
        (FramerOld.run [FramerOld.Ev.update (HttpResult.response true (some ⟨true⟩)), FramerOld.Ev.unmount])
        (FramerOld.Ev.tick (HttpResult.response true (some ⟨"running", some ("coletando")⟩)) HttpResult.transportError)).statusMsg
        = "coletando"
    ∧ (FramerOld.run [FramerOld.Ev.update (HttpResult.response true (some ⟨true⟩)), FramerOld.Ev.unmount]).statusMsg
        = "Iniciando..."
    ∧ (∀ st : Web001.Dash, (Web001.step st Web001.Ev.unmount).pollActive = false) := by
  refine ⟨rfl, rfl, rfl, fun st => rfl⟩

/-- Claim C4 counterexample: in the framer-exports.tsx poll tick, a non-OK
server response is not swallowed — the code never consults `res.ok`, so a
non-OK response whose JSON body reports status "error" terminates the polling
run with a failure (interval cleared, error surfaced), contradicting "a
non-OK server response is swallowed and retried and never produces a terminal
failure of the polling run". -/
theorem c4_counterexample_non_ok_error_body_terminates :
    (FramerOld.pollTick (HttpResult.response false (some ⟨"error", some ("boom")⟩))
        HttpResult.transportError
        { FramerOld.initDash with timers := 1, loading := true, statusMsg := "Iniciando..." }).timers = 0
    ∧ (FramerOld.pollTick (HttpResult.response false (some ⟨"error", some ("boom")⟩))
        HttpResult.transportError
        { FramerOld.initDash with timers := 1, loading := true, statusMsg := "Iniciando..." }).error = some ("boom")
    ∧ (FramerOld.pollTick (HttpResult.response false (some ⟨"error", some ("boom")⟩))
        HttpResult.transportError
        { FramerOld.initDash with timers := 1, loading := true, statusMsg := "Iniciando..." }).loading = false := by
  refine ⟨rfl, by decide, rfl⟩

/-- Claim C4 as amended: transport errors and unparseable bodies are swallowed
by every poller, and in the scheduler and the part_001 dashboard a non-OK
response is swallowed too, so there only an engine-reported status "error"
terminates polling with a failure; the framer-exports.tsx tick however ignores
the HTTP ok flag entirely — it treats a non-OK response exactly like an OK
one, so a non-OK JSON body reporting "error" does terminate its polling run. -/
theorem c4_amended_poll_failure_swallowed (b : Option StatusBody) (sb : StatusBody)
    (d : Option String) (dr : HttpResult Web001.CuradoriaBody)
    (st : Web001.Dash) (stF : FramerOld.Dash) : ∀ s dd : String,
    Web001.pollTick HttpResult.transportError dr st = st
    ∧ Web001.pollTick (HttpResult.response false b) dr st = st
    ∧ Web001.pollTick (HttpResult.response true none) dr st = st
    ∧ (Web001.pollTick (HttpResult.response true (some ⟨"error", d⟩)) dr st).pollActive = false
    ∧ (Web001.pollTick (HttpResult.response true (some ⟨"error", d⟩)) dr st).error
        = some (jsOr d ("Erro ao atualizar"))
    ∧ (Web001.pollTick (HttpResult.response true (some ⟨"running", d⟩)) dr st).pollActive = st.pollActive
    ∧ FramerOld.pollTick HttpResult.transportError dr stF = stF
    ∧ FramerOld.pollTick (HttpResult.response true none) dr stF = stF
    ∧ FramerOld.pollTick (HttpResult.response false none) dr stF = stF
    ∧ FramerOld.pollTick (HttpResult.response false (some sb)) dr stF
        = FramerOld.pollTick (HttpResult.response true (some sb)) dr stF
    ∧ Sched.tickTerminal Sched.PollResult.fail = false
    ∧ Sched.tickTerminal (Sched.PollResult.status s dd) = (s == "done" || s == "error") := by
  intro s dd
  refine ⟨rfl, rfl, rfl, rfl, rfl, rfl, rfl, rfl, rfl, rfl, rfl, rfl⟩

/-- Claim C5: in the part_001 dashboard, a poll tick never modifies the
rendered items list — a transport error, a non-OK response, an unparseable
body, a "running" status, an "error" status or an unknown status all leave it
untouched — except that a "done" status whose follow-up dataset fetch
succeeds replaces the whole list at once (and a failed follow-up fetch leaves
it untouched).  A user-initiated update also never touches the items list. -/
theorem c5_items_stable_while_polling (s : String) (d : Option String)
    (sb : Option StatusBody) (dr : HttpResult Web001.CuradoriaBody)
    (r : HttpResult Unit) (st : Web001.Dash) :
    (Web001.pollTick HttpResult.transportError dr st).items = st.items
    ∧ (Web001.pollTick (HttpResult.response false sb) dr st).items = st.items
    ∧ (Web001.pollTick (HttpResult.response true none) dr st).items = st.items
    ∧ (Web001.pollTick (HttpResult.response true (some ⟨s, d⟩)) dr st).items =
        (if s = "done" then
          (match dr with
           | HttpResult.response true (some data) => data.items.getD []
           | _ => st.items)
         else st.items)
    ∧ (Web001.handleUpdate r st).items = st.items := by
  refine ⟨rfl, rfl, rfl, ?_, ?_⟩
  · by_cases h1 : s = "running"
    · subst h1
      rfl
    · by_cases h2 : s = "done"
      · subst h2
        cases dr with
        | transportError => rfl
        | response ok body => cases ok <;> cases body <;> rfl
      · by_cases h3 : s = "error"
        · subst h3
          rfl
        · simp [Web001.pollTick, h1, h2, h3]
  · cases r with
    | transportError => rfl
    | response ok body => cases ok <;> rfl

/-- Claim C8: a CuratedItem payload in which `relevance_score`, `tags`,
`published_date` and `comment_count` are all absent still renders without
failure and with the relevance badge omitted; rendering succeeds for every
item, and for a present score the badge is shown exactly when the score is
greater than zero. -/
theorem c8_missing_fields_render_safe (t s c d a u : String) (q : Rat) (item : CuratedItem) :
    (AppWeb.renderCard ⟨t, s, c, d, a, u, none, none, none, none⟩).isOk = true
    ∧ Except.map AppWeb.Card.badge (AppWeb.renderCard ⟨t, s, c, d, a, u, none, none, none, none⟩)
        = Except.ok none
    ∧ (AppWeb.renderCard item).isOk = true
    ∧ Except.map AppWeb.Card.badge (AppWeb.renderCard ⟨t, s, c, d, a, u, some q, none, none, none⟩)
        = Except.ok (if 0 < q then some (AppWeb.jsRound q) else none) := by
  refine ⟨rfl, rfl, rfl, ?_⟩
  by_cases h0 : 0 < q
  · simp [AppWeb.renderCard, AppWeb.jsGtZero, h0, Except.map]
  · simp [AppWeb.renderCard, AppWeb.jsGtZero, h0, Except.map]

/-- Claim C9: in App.tsx, the "youtube" filter is the identity on every items
list (the filter function has no YouTube predicate, so that key reaches the
final catch-all), while the counts object passed to the tab bar has no
youtube key (`none` = JS undefined) even though SectionTabs renders a YouTube
tab. -/
theorem c9_youtube_filter_identity_and_missing_count (items : List CuratedItem) :
    AppWeb.filtered AppWeb.FilterType.youtube items = items
    ∧ AppWeb.counts items AppWeb.FilterType.youtube = none
    ∧ (AppWeb.sectionTabs.map Prod.fst).contains AppWeb.FilterType.youtube = true := by
  refine ⟨?_, rfl, rfl⟩
  simp [AppWeb.filtered]

/-- Claim C10: in App.tsx, a user-initiated update is atomic at the UI state —
on a transport error, a non-OK response, an unparseable body, or a body with
`success: false`, the items list and the last-update timestamp are unchanged,
the error message is set (the connection message, or the body's error text),
and loading ends false. -/
theorem c10_update_failure_atomic (st : AppWeb.AppState) (b : Option AppWeb.AtualizarBody)
    (its : List CuratedItem) (upd eo : Option String) :
    ((AppWeb.handleUpdate HttpResult.transportError st).items = st.items
      ∧ (AppWeb.handleUpdate HttpResult.transportError st).lastUpdate = st.lastUpdate
      ∧ (AppWeb.handleUpdate HttpResult.transportError st).error = some AppWeb.connErrorMsg
      ∧ (AppWeb.handleUpdate HttpResult.transportError st).loading = false)
    ∧ ((AppWeb.handleUpdate (HttpResult.response false b) st).items = st.items
      ∧ (AppWeb.handleUpdate (HttpResult.response false b) st).lastUpdate = st.lastUpdate
      ∧ (AppWeb.handleUpdate (HttpResult.response false b) st).error = some AppWeb.connErrorMsg
      ∧ (AppWeb.handleUpdate (HttpResult.response false b) st).loading = false)
    ∧ ((AppWeb.handleUpdate (HttpResult.response true none) st).items = st.items
      ∧ (AppWeb.handleUpdate (HttpResult.response true none) st).lastUpdate = st.lastUpdate
      ∧ (AppWeb.handleUpdate (HttpResult.response true none) st).error = some AppWeb.connErrorMsg
      ∧ (AppWeb.handleUpdate (HttpResult.response true none) st).loading = false)
    ∧ ((AppWeb.handleUpdate (HttpResult.response true (some ⟨false, its, upd, eo⟩)) st).items = st.items
      ∧ (AppWeb.handleUpdate (HttpResult.response true (some ⟨false, its, upd, eo⟩)) st).lastUpdate = st.lastUpdate
      ∧ (AppWeb.handleUpdate (HttpResult.response true (some ⟨false, its, upd, eo⟩)) st).error
          = some (jsOr eo ("Erro desconhecido ao atualizar"))
      ∧ (AppWeb.handleUpdate (HttpResult.response true (some ⟨false, its, upd, eo⟩)) st).loading = false) :=
  ⟨⟨rfl, rfl, rfl, rfl⟩, ⟨rfl, rfl, rfl, rfl⟩, ⟨rfl, rfl, rfl, rfl⟩, ⟨rfl, rfl, rfl, rfl⟩⟩
